import Mathlib

/-!
Verification of the methane-monitoring core of this repository: the
anomaly detector, the deduplication ledger, the detection-and-notify pass,
the monitoring loop, the tiered email notifier, the LLM reasoning bridge
and the ingestion endpoint.  Python floats are embedded as rationals (no
rounding is exercised by any property here), Python dicts keyed by strings
as association lists, and fallible calls as `Except`/`Option` values driven
by an explicit environment.
-/

/-- A methane-concentration value as found in a reading dict: either a value
`float(x)` accepts, or a malformed value on which `float(x)` raises. -/
inductive PpmVal where
  | num (q : ℚ)
  | invalid
  deriving DecidableEq, Repr

/-- Embeds `_safe_float` of `src/autonomous/crew_box.py` (lines 133-137) at
its call site default: `float(x)` when that succeeds, otherwise the default
`0.0`; an absent key (Python `None`) also raises in `float` and yields the
default. -/
def safe_float (x : Option PpmVal) : ℚ :=
  match x with
  | some (PpmVal.num q) => q
  | some PpmVal.invalid => 0
  | none => 0

/-- One reading dict as the detection pass consumes it: the stored fields
plus the alternative trace-key spellings `run_detection_once_and_maybe_notify`
probes (`trace_id`, `traceid`, `id`).  `none` is an absent key; `some ""` an
empty string value. -/
structure Reading where
  timestamp : String
  node_id : String
  methane_ppm : Option PpmVal
  scenario : String
  trace_id : Option String
  traceid : Option String
  id_key : Option String
  deriving DecidableEq, Repr

/-- An anomaly as built by `detect_anomalies_from_readings`: the reason
string paired with the offending reading. -/
structure Anomaly where
  reason : String
  reading : Reading
  deriving DecidableEq, Repr

/-- Embeds `detect_anomalies_from_readings` of `src/autonomous/crew_box.py`
(lines 140-156): keep, in order, every reading whose coerced concentration is
at least the absolute threshold, tagging each with the reason f-string.  The
function is pure: it only constructs the returned list. -/
def detect_anomalies_from_readings : List Reading → ℚ → List Anomaly
  | [], _ => []
  | r :: rest, absolute_threshold =>
      let ppm := safe_float r.methane_ppm
      if ppm ≥ absolute_threshold then
        ⟨"ppm >= " ++ toString absolute_threshold, r⟩ ::
          detect_anomalies_from_readings rest absolute_threshold
      else
        detect_anomalies_from_readings rest absolute_threshold

/-- The dedup ledger `_last_alert_ts`: a Python dict from trace id to the
unix time of the last alert, embedded as an association list in insertion
order. -/
abbrev Ledger := List (String × ℚ)

/-- Dict lookup `d.get(k)`. -/
def ledgerGet : Ledger → String → Option ℚ
  | [], _ => none
  | (k, v) :: rest, key => if k = key then some v else ledgerGet rest key

/-- Dict assignment `d[k] = v`: overwrite in place, else append. -/
def ledgerSet : Ledger → String → ℚ → Ledger
  | [], key, v => [(key, v)]
  | (k, w) :: rest, key, v =>
      if k = key then (key, v) :: rest else (k, w) :: ledgerSet rest key v

/-- Embeds `_should_alert_for_trace` of `src/autonomous/crew_box.py` (lines
170-178), with the module globals `_last_alert_ts`, `ALERT_COOLDOWN_SECONDS`
and the `time.time()` reading passed explicitly: alert when the trace id is
falsy, when no entry exists, or when the last alert is at least the cooldown
window old. -/
def should_alert_for_trace (ledger : Ledger) (cooldown now : ℚ)
    (trace_id : String) : Bool :=
  if trace_id = "" then true
  else
    match ledgerGet ledger trace_id with
    | none => true
    | some last => decide (now - last ≥ cooldown)

/-- Embeds `_mark_alert_sent` of `src/autonomous/crew_box.py` (lines
180-183): a falsy trace id is a no-op, otherwise record `time.time()` (passed
as `now`) under the trace id. -/
def mark_alert_sent (ledger : Ledger) (now : ℚ) (trace_id : String) : Ledger :=
  if trace_id = "" then ledger else ledgerSet ledger trace_id now

/-- Helper: membership in the detector's output, stated through the
filter/map normal form. -/
theorem detect_anomalies_eq_filter_map (rs : List Reading) (th : ℚ) :
    detect_anomalies_from_readings rs th =
      (rs.filter (fun r => decide (safe_float r.methane_ppm ≥ th))).map
        (fun r => ⟨"ppm >= " ++ toString th, r⟩) := by
  induction rs with
  | nil => rfl
  | cons r rest ih =>
      by_cases h : safe_float r.methane_ppm ≥ th <;>
        simp [detect_anomalies_from_readings, List.filter, h, ih]

/-- C1: `should_alert_for_trace` is true exactly when the trace id is empty,
no ledger entry exists, or the last alert is at least the cooldown window in
the past; with cooldown 300 and a last alert at time 0 it is false at time
299 and true at time 300. -/
theorem should_alert_iff_cooldown_elapsed :
    (∀ (ledger : Ledger) (cooldown now : ℚ) (tid : String),
        should_alert_for_trace ledger cooldown now tid = true ↔
          (tid = "" ∨ ledgerGet ledger tid = none ∨
            ∃ last, ledgerGet ledger tid = some last ∧ now - last ≥ cooldown)) ∧
    should_alert_for_trace [("t1", 0)] 300 299 "t1" = false ∧
    should_alert_for_trace [("t1", 0)] 300 300 "t1" = true := by
  refine ⟨fun ledger cooldown now tid => ?_,
    by simp [should_alert_for_trace, ledgerGet]; norm_num,
    by simp [should_alert_for_trace, ledgerGet]⟩
  unfold should_alert_for_trace
  by_cases htid : tid = ""
  · simp [htid]
  · simp only [htid, if_false]
    cases hget : ledgerGet ledger tid with
    | none => simp [hget]
    | some last =>
        simp only [hget, decide_eq_true_eq]
        constructor
        · intro h
          exact Or.inr (Or.inr ⟨last, rfl, h⟩)
        · rintro (h | h | ⟨l, hl, hge⟩)
          · exact h.elim
          · exact Option.noConfusion h
          · injection hl with hl
            exact hl ▸ hge

/-- C2: the detector returns exactly the readings whose coerced concentration
is ≥ the threshold (boundary inclusive), in order, each paired with its
reason string; a reading equal to the threshold is flagged.  The detector is
a pure function of its arguments by construction. -/
theorem detect_anomalies_exactly_threshold :
    (∀ (rs : List Reading) (th : ℚ),
        detect_anomalies_from_readings rs th =
          (rs.filter (fun r => decide (safe_float r.methane_ppm ≥ th))).map
            (fun r => ⟨"ppm >= " ++ toString th, r⟩)) ∧
    (∀ (rs : List Reading) (th : ℚ) (r : Reading),
        (∃ a ∈ detect_anomalies_from_readings rs th, a.reading = r) ↔
          (r ∈ rs ∧ safe_float r.methane_ppm ≥ th)) ∧
    (detect_anomalies_from_readings
        [⟨"t", "A", some (PpmVal.num 5000), "normal", some "x", none, none⟩]
        5000).map Anomaly.reading =
      [⟨"t", "A", some (PpmVal.num 5000), "normal", some "x", none, none⟩] := by
  refine ⟨detect_anomalies_eq_filter_map, fun rs th r => ?_, by decide⟩
  rw [detect_anomalies_eq_filter_map]
  constructor
  · rintro ⟨a, ha, hread⟩
    obtain ⟨r', hr', rfl⟩ := List.mem_map.mp ha
    obtain ⟨hmem, hth⟩ := List.mem_filter.mp hr'
    subst hread
    exact ⟨hmem, of_decide_eq_true hth⟩
  · rintro ⟨hmem, hth⟩
    exact ⟨⟨"ppm >= " ++ toString th, r⟩,
      List.mem_map.mpr ⟨r, List.mem_filter.mpr ⟨hmem, decide_eq_true hth⟩, rfl⟩,
      rfl⟩

/-- The trace id the detection pass derives for an anomaly's reading:
`r.get("trace_id") or r.get("traceid") or r.get("id") or ""` — Python `or`
skips both absent keys and empty strings. -/
def orKey (a : Option String) (b : String) : String :=
  match a with
  | some s => if s = "" then b else s
  | none => b

/-- The `trace_id or traceid or id or ""` chain of
`run_detection_once_and_maybe_notify` (line 202). -/
def reading_trace_id (r : Reading) : String :=
  orKey r.trace_id (orKey r.traceid (orKey r.id_key ""))

/-- The environment one detection pass reads: the fetched readings, the
configured threshold and cooldown, the clock, and the outcomes of the two
remote calls (reasoner and email sender). -/
structure RunEnv where
  readings : List Reading
  threshold : ℚ
  cooldown : ℚ
  now : ℚ
  nowMs : Int
  reasonerResult : Except String String
  sendTo : Option (List String)
  envRecipient : Option String
  emailError : Option String

/-- Embeds `run_detection_once_and_maybe_notify` of
`src/autonomous/crew_box.py` (lines 185-249) as a state transformer on the
dedup ledger, returning `(sent_flag, report_text, ledger)`.  Remote effects
are read from the environment: `reasonerResult` is the reasoner's report (an
exception becomes the fallback report text and the pass continues),
`emailError` is the exception `send_email_alert` raises, if any.  The email
subject/body composition (lines 236-237) carries no control flow and is
elided. -/
def run_detection_once_and_maybe_notify (env : RunEnv) (ledger : Ledger) :
    Bool × String × Ledger :=
  if env.readings.isEmpty then (false, "No readings found.", ledger)
  else
    let anomalies := detect_anomalies_from_readings env.readings env.threshold
    if anomalies.isEmpty then (false, "No anomalies found.", ledger)
    else
      let newAnomalies :=
        (anomalies.map (fun a => (reading_trace_id a.reading, a.reading))).filter
          (fun p => should_alert_for_trace ledger env.cooldown env.now p.1)
      if newAnomalies.isEmpty then
        (false, "Anomalies present but none are new (cooldown).", ledger)
      else
        let reportText :=
          match env.reasonerResult with
          | Except.ok s => s
          | Except.error e => "LLM reasoner failed: " ++ e
        let sendTo :=
          match env.sendTo with
          | some l => l
          | none =>
              match env.envRecipient with
              | some raw => [raw]
              | none => []
        if sendTo.isEmpty then
          (false, reportText ++ "\n\nNo recipients configured.", ledger)
        else
          match env.emailError with
          | some e => (false, reportText ++ "\n\nEmail error: " ++ e, ledger)
          | none =>
              let ledger' := newAnomalies.foldl
                (fun l p =>
                  mark_alert_sent l env.now
                    (if p.1 = "" then "anon-" ++ toString env.nowMs else p.1))
                ledger
              (true, reportText, ledger')

/-- C3: when the notification step raises, the pass returns with the dedup
ledger exactly as it was — no entry is created or updated for any anomaly of
that pass, so a failed alert stays eligible next cycle (the ledger is only
written after `send_email_alert` returns). -/
theorem notify_failure_leaves_ledger_unchanged (env : RunEnv) (ledger : Ledger)
    (h : env.emailError.isSome = true) :
    (run_detection_once_and_maybe_notify env ledger).2.2 = ledger ∧
      (run_detection_once_and_maybe_notify env ledger).1 = false := by
  obtain ⟨e, he⟩ := Option.isSome_iff_exists.mp h
  by_cases h1 : env.readings.isEmpty
  · simp [run_detection_once_and_maybe_notify, h1]
  · by_cases h2 :
        (detect_anomalies_from_readings env.readings env.threshold).isEmpty
    · simp [run_detection_once_and_maybe_notify, h1, h2]
    · by_cases h3 :
          (((detect_anomalies_from_readings env.readings env.threshold).map
              (fun a => (reading_trace_id a.reading, a.reading))).filter
            (fun p => should_alert_for_trace ledger env.cooldown env.now p.1)).isEmpty
      · simp [run_detection_once_and_maybe_notify, h1, h2, h3]
      · by_cases h4 :
            (match env.sendTo with
              | some l => l
              | none =>
                  match env.envRecipient with
                  | some raw => [raw]
                  | none => ([] : List String)).isEmpty
        · simp [run_detection_once_and_maybe_notify, h1, h2, h3, h4, he]
        · simp [run_detection_once_and_maybe_notify, h1, h2, h3, h4, he]

/-- A concrete environment whose email step fails: one over-threshold
reading, reasoner succeeds, a recipient is configured, SMTP raises. -/
def envEmailDown : RunEnv :=
  ⟨[⟨"2025-10-22T20:40:00Z", "Sensor_A", some (PpmVal.num 9000), "spike",
      some "t1", none, none⟩],
    5000, 300, 1000, 1000000, Except.ok "escalate", some ["ops@example.com"],
    none, some "SMTP connection refused"⟩

/-- Witness for C3 at `envEmailDown`: the ledger is untouched and no alert is
recorded as sent. -/
theorem notify_failure_leaves_ledger_unchanged_witness :
    (run_detection_once_and_maybe_notify envEmailDown []).2.2 = ([] : Ledger) ∧
      (run_detection_once_and_maybe_notify envEmailDown []).1 = false :=
  notify_failure_leaves_ledger_unchanged envEmailDown [] rfl

/-- One operation on the dedup ledger as the detection pass performs them:
a read (`_should_alert_for_trace`, which never writes) or a write
(`_mark_alert_sent`). -/
inductive LedgerOp where
  | shouldAlertOp (trace_id : String) (now : ℚ)
  | markAlertedOp (trace_id : String) (now : ℚ)
  deriving DecidableEq, Repr

/-- Effect of one ledger operation on the ledger state. -/
def applyLedgerOp (ledger : Ledger) : LedgerOp → Ledger
  | LedgerOp.shouldAlertOp _ _ => ledger
  | LedgerOp.markAlertedOp tid now => mark_alert_sent ledger now tid

/-- A sequence of ledger operations run from an initial state. -/
def runLedgerOps (ledger : Ledger) (ops : List LedgerOp) : Ledger :=
  ops.foldl applyLedgerOp ledger

/-- Helper: `ledgerSet` with a non-empty key keeps every key non-empty. -/
theorem ledgerSet_keys_nonempty (l : Ledger) (k : String) (v : ℚ)
    (hk : k ≠ "") (hl : ∀ p ∈ l, p.1 ≠ "") :
    ∀ p ∈ ledgerSet l k v, p.1 ≠ "" := by
  induction l with
  | nil =>
      intro p hp
      simp only [ledgerSet, List.mem_singleton] at hp
      subst hp
      exact hk
  | cons q rest ih =>
      intro p hp
      simp only [ledgerSet] at hp
      by_cases hq : q.1 = k
      · rw [if_pos hq] at hp
        rcases List.mem_cons.mp hp with h | h
        · subst h; exact hk
        · exact hl p (List.mem_cons_of_mem q h)
      · rw [if_neg hq] at hp
        rcases List.mem_cons.mp hp with h | h
        · subst h; exact hl q (List.mem_cons_self q rest)
        · exact ih (fun r hr => hl r (List.mem_cons_of_mem q hr)) p h

/-- Helper: every ledger operation preserves "all keys non-empty". -/
theorem applyLedgerOp_keys_nonempty (l : Ledger) (op : LedgerOp)
    (hl : ∀ p ∈ l, p.1 ≠ "") : ∀ p ∈ applyLedgerOp l op, p.1 ≠ "" := by
  cases op with
  | shouldAlertOp tid now => exact hl
  | markAlertedOp tid now =>
      by_cases htid : tid = ""
      · simpa [applyLedgerOp, mark_alert_sent, htid] using hl
      · simpa [applyLedgerOp, mark_alert_sent, htid] using
          ledgerSet_keys_nonempty l tid now htid hl

/-- Helper: the invariant carries through a whole operation sequence. -/
theorem runLedgerOps_keys_nonempty (ops : List LedgerOp) (l : Ledger)
    (hl : ∀ p ∈ l, p.1 ≠ "") : ∀ p ∈ runLedgerOps l ops, p.1 ≠ "" := by
  induction ops generalizing l with
  | nil => exact hl
  | cons op rest ih =>
      exact ih (applyLedgerOp l op) (applyLedgerOp_keys_nonempty l op hl)

/-- C10: marking with an empty (absent) trace id is a no-op, and from the
empty ledger every `should_alert`/`mark_alerted` sequence leaves only
non-empty keys in the ledger. -/
theorem ledger_keys_always_nonempty :
    (∀ (l : Ledger) (now : ℚ), mark_alert_sent l now "" = l) ∧
    (∀ ops : List LedgerOp, ∀ p ∈ runLedgerOps [] ops, p.1 ≠ "") := by
  constructor
  · intro l now
    simp [mark_alert_sent]
  · intro ops
    exact runLedgerOps_keys_nonempty ops [] (by intro p hp; cases hp)

/-- The store client held by the module-level `_client` of
`src/data_layer/weaviate_client.py`; `closeRaises` records whether its
`close()` method would raise. -/
structure StoreClient where
  closeRaises : Bool
  deriving DecidableEq, Repr

/-- Embeds `close_client` of `src/data_layer/weaviate_client.py` (lines
141-154): if a client is held, attempt `close()` (errors swallowed by the
inner try/except), and in all cases reset the module state to `None`.
Returns the new state and whether an underlying close was attempted. -/
def close_client : Option StoreClient → Option StoreClient × Bool
  | some _ => (none, true)
  | none => (none, false)

/-- What one pass of the `while True` body produced: a completed detection
pass (possibly an exception, caught and logged in the inner try/except). -/
inductive CycleOutcome where
  | ok
  | err (msg : String)
  deriving DecidableEq, Repr

/-- One observable event of the monitoring loop: a cycle runs (with either
outcome), or the cancellation signal (KeyboardInterrupt) arrives. -/
inductive LoopEvent where
  | cycle (outcome : CycleOutcome)
  | cancel
  deriving DecidableEq, Repr

/-- `true` exactly on the cancellation event. -/
def isCancelEvent : LoopEvent → Bool
  | LoopEvent.cancel => true
  | LoopEvent.cycle _ => false

/-- The loop's observable result over a finite event trace. -/
structure LoopResult where
  cyclesCompleted : Nat
  cancelled : Bool
  closeCalls : Nat
  finalClient : Option StoreClient
  deriving DecidableEq, Repr

/-- Embeds `_run_loop_forever` of `src/autonomous/crew_box.py` (lines
252-275) over a finite trace of events: each cycle event runs the loop body
once (an exception is caught by the inner `except Exception` and the loop
continues to the sleep), and the first cancellation runs the `finally`
block, which calls `close_client` exactly once inside a try/except that
tolerates release errors.  A trace with no cancellation leaves the loop
still running and the client untouched. -/
def run_loop : List LoopEvent → Option StoreClient → LoopResult
  | [], client => ⟨0, false, 0, client⟩
  | LoopEvent.cycle _ :: rest, client =>
      let r := run_loop rest client
      ⟨r.cyclesCompleted + 1, r.cancelled, r.closeCalls, r.finalClient⟩
  | LoopEvent.cancel :: _, client =>
      ⟨0, true, 1, (close_client client).1⟩

/-- C4: over every event trace, the loop terminates exactly when a
cancellation arrives; every cycle before the first cancellation completes
(an erroring cycle does not stop the loop); on cancellation `close_client`
runs exactly once and clears the held client even when `close()` itself
raises; and a second `close_client` call performs no further close. -/
theorem run_loop_survives_errors_and_releases_once :
    (∀ (evts : List LoopEvent) (c : Option StoreClient),
        (run_loop evts c).cancelled = true ↔ LoopEvent.cancel ∈ evts) ∧
    (∀ (evts : List LoopEvent) (c : Option StoreClient),
        (run_loop evts c).cyclesCompleted =
          (evts.takeWhile (fun e => !isCancelEvent e)).length) ∧
    (∀ (evts : List LoopEvent) (c : Option StoreClient),
        LoopEvent.cancel ∈ evts →
          (run_loop evts c).closeCalls = 1 ∧
            (run_loop evts c).finalClient = none) ∧
    (∀ b : Bool, close_client (some ⟨b⟩) = (none, true)) ∧
    (∀ c : Option StoreClient, close_client (close_client c).1 = (none, false)) := by
  have hcancel : ∀ (evts : List LoopEvent) (c : Option StoreClient),
      (run_loop evts c).cancelled = true ↔ LoopEvent.cancel ∈ evts := by
    intro evts c
    induction evts with
    | nil => simp [run_loop]
    | cons e rest ih =>
        cases e with
        | cycle o => simpa [run_loop] using ih
        | cancel => simp [run_loop]
  refine ⟨hcancel, fun evts c => ?_, fun evts c hmem => ?_, fun b => rfl,
    fun c => by cases c <;> rfl⟩
  · induction evts with
    | nil => simp [run_loop]
    | cons e rest ih =>
        cases e with
        | cycle o => simp [run_loop, isCancelEvent, List.takeWhile, ih]
        | cancel => simp [run_loop, isCancelEvent, List.takeWhile]
  · induction evts with
    | nil => cases hmem
    | cons e rest ih =>
        cases e with
        | cycle o =>
            have : LoopEvent.cancel ∈ rest := by
              rcases List.mem_cons.mp hmem with h | h
              · exact absurd h (by simp)
              · exact h
            simpa [run_loop] using ih this
        | cancel => cases c <;> simp [run_loop, close_client]

/-- One observable delivery action of `send_email_alert`: an SMTP-SSL
attempt, an SMTP-STARTTLS attempt, a backoff sleep, or a SendGrid request. -/
inductive SendStep where
  | sslAttempt (attempt : Nat) (ok : Bool)
  | tlsAttempt (attempt : Nat) (ok : Bool)
  | sleep (seconds : ℚ)
  | sendgridAttempt (ok : Bool)
  deriving DecidableEq, Repr

/-- The environment `send_email_alert` of `src/autonomous/email_alert.py`
reads: the retry configuration, the credential/env values, the two
connectivity probes (`_check_port` on 465 and 587), and the outcome of each
remote attempt.  `sslFailure n` / `tlsFailure n` is the exception the n-th
attempt raises, `none` meaning that attempt delivers. -/
structure EmailEnv where
  maxRetries : Nat
  retryDelay : ℚ
  gmailUser : Option String
  gmailPassword : Option String
  alertTo : String
  port465Open : Bool
  port587Open : Bool
  sslFailure : Nat → Option String
  tlsFailure : Nat → Option String
  sendgridKey : Option String
  sendgridFrom : Option String
  sendgridOk : Bool

/-- `bool(GMAIL_USER and GMAIL_APP_PASSWORD)` — `none` models an unset or
empty env var. -/
def hasGmailCreds (env : EmailEnv) : Bool :=
  env.gmailUser.isSome && env.gmailPassword.isSome

/-- Embeds `_get_recipient_list` of `src/autonomous/email_alert.py` (lines
29-32): split on commas, strip, drop empties. -/
def get_recipient_list (value : String) : List String :=
  ((value.splitOn ",").map String.trim).filter (fun s => s ≠ "")

/-- The retry loop of `_try_smtp_ssl` (lines 44-59): attempts are numbered
from `a`, `fuel` of them remain; a failure emits the attempt and then the
exponential-backoff sleep `RETRY_DELAY_SECONDS * 2 ** (attempt - 1)` and
retries; a success returns immediately. -/
def try_smtp_ssl_loop (env : EmailEnv) : Nat → Nat → List SendStep × Bool
  | _, 0 => ([], false)
  | a, fuel + 1 =>
      match env.sslFailure a with
      | none => ([SendStep.sslAttempt a true], true)
      | some _ =>
          let r := try_smtp_ssl_loop env (a + 1) fuel
          (SendStep.sslAttempt a false ::
            SendStep.sleep (env.retryDelay * 2 ^ (a - 1)) :: r.1, r.2)

/-- Embeds `_try_smtp_ssl` of `src/autonomous/email_alert.py` (lines 41-61):
`for attempt in range(1, MAX_RETRIES + 1)`. -/
def try_smtp_ssl (env : EmailEnv) : List SendStep × Bool :=
  try_smtp_ssl_loop env 1 env.maxRetries

/-- The retry loop of `_try_smtp_starttls` (lines 65-83), identical in shape
to the SSL loop. -/
def try_smtp_starttls_loop (env : EmailEnv) : Nat → Nat → List SendStep × Bool
  | _, 0 => ([], false)
  | a, fuel + 1 =>
      match env.tlsFailure a with
      | none => ([SendStep.tlsAttempt a true], true)
      | some _ =>
          let r := try_smtp_starttls_loop env (a + 1) fuel
          (SendStep.tlsAttempt a false ::
            SendStep.sleep (env.retryDelay * 2 ^ (a - 1)) :: r.1, r.2)

/-- Embeds `_try_smtp_starttls` of `src/autonomous/email_alert.py`
(lines 63-85). -/
def try_smtp_starttls (env : EmailEnv) : List SendStep × Bool :=
  try_smtp_starttls_loop env 1 env.maxRetries

/-- Embeds `_send_via_sendgrid` of `src/autonomous/email_alert.py` (lines
87-106): `False` without an HTTP request when key or from-address is
missing, else the request's outcome. -/
def send_via_sendgrid (env : EmailEnv) : Bool :=
  if env.sendgridKey.isSome && env.sendgridFrom.isSome then env.sendgridOk
  else false

/-- The SMTP block of `send_email_alert` (lines 123-131): entered only with
Gmail credentials and at least one open port; 465 first, then 587 if the
first did not deliver. -/
def smtpPhase (env : EmailEnv) : List SendStep × Bool :=
  if hasGmailCreds env && (env.port465Open || env.port587Open) then
    let r1 := if env.port465Open then try_smtp_ssl env else ([], false)
    if r1.2 then r1
    else
      let r2 := if env.port587Open then try_smtp_starttls env else ([], false)
      (r1.1 ++ r2.1, r2.2)
  else ([], false)

/-- Recipient resolution at the top of `send_email_alert` (lines 108-110):
an explicit list wins, else the comma-separated `ALERT_TO` env value. -/
def resolved_recipients (env : EmailEnv) (to_addrs : Option (List String)) :
    List String :=
  match to_addrs with
  | some l => l
  | none => get_recipient_list env.alertTo

/-- Embeds `send_email_alert` of `src/autonomous/email_alert.py` (lines
108-139) as the list of delivery actions taken plus the outcome: `.ok true`
when some channel delivered, `.error` with the raised message otherwise.
An empty resolved recipient list raises before any probe or attempt. -/
def send_email_alert (env : EmailEnv) (to_addrs : Option (List String)) :
    List SendStep × Except String Bool :=
  let addrs := resolved_recipients env to_addrs
  if addrs.isEmpty then
    ([], Except.error "No recipient addresses provided (ALERT_TO or to_addrs)")
  else
    let smtp := smtpPhase env
    if smtp.2 then (smtp.1, Except.ok true)
    else if env.sendgridKey.isSome then
      if send_via_sendgrid env then
        (smtp.1 ++ [SendStep.sendgridAttempt true], Except.ok true)
      else
        (smtp.1 ++ [SendStep.sendgridAttempt false],
          Except.error "Failed to send email via SMTP and no successful fallback.")
    else
      (smtp.1, Except.error "Failed to send email via SMTP and no successful fallback.")

/-- C7: with an empty resolved recipient list the notifier raises
immediately — no probe, no SMTP attempt, no fallback request — whatever the
transports would have done. -/
theorem empty_recipients_always_raise (env : EmailEnv)
    (to_addrs : Option (List String))
    (h : resolved_recipients env to_addrs = []) :
    send_email_alert env to_addrs =
      ([], Except.error "No recipient addresses provided (ALERT_TO or to_addrs)") := by
  unfold send_email_alert
  simp [h]

/-- A transport environment where everything would succeed, used to witness
that zero recipients fail regardless of transport availability. -/
def envAllUp : EmailEnv :=
  ⟨4, 2, some "user@gmail.com", some "app-password", "", true, true,
    fun _ => none, fun _ => none, some "sg-key", some "user@gmail.com", true⟩

/-- Witness for C7: explicit empty recipient list, all transports healthy,
still the raise. -/
theorem empty_recipients_always_raise_witness :
    send_email_alert envAllUp (some []) =
      ([], Except.error "No recipient addresses provided (ALERT_TO or to_addrs)") :=
  empty_recipients_always_raise envAllUp (some []) rfl

/-- Classifier: SMTP-SSL attempt steps. -/
def isSslStep : SendStep → Bool
  | SendStep.sslAttempt _ _ => true
  | _ => false

/-- Classifier: SMTP-STARTTLS attempt steps. -/
def isTlsStep : SendStep → Bool
  | SendStep.tlsAttempt _ _ => true
  | _ => false

/-- Helper: the SSL retry loop emits only SSL attempts and sleeps. -/
theorem try_smtp_ssl_loop_steps (env : EmailEnv) :
    ∀ (fuel a : Nat), ∀ s ∈ (try_smtp_ssl_loop env a fuel).1,
      (∃ n b, s = SendStep.sslAttempt n b) ∨ (∃ q, s = SendStep.sleep q) := by
  intro fuel
  induction fuel with
  | zero => intro a s hs; cases hs
  | succ fuel ih =>
      intro a s hs
      unfold try_smtp_ssl_loop at hs
      cases hfail : env.sslFailure a with
      | none =>
          rw [hfail] at hs
          simp only [List.mem_singleton] at hs
          exact Or.inl ⟨a, true, hs⟩
      | some e =>
          rw [hfail] at hs
          rcases List.mem_cons.mp hs with h | h
          · exact Or.inl ⟨a, false, h⟩
          · rcases List.mem_cons.mp h with h' | h'
            · exact Or.inr ⟨env.retryDelay * 2 ^ (a - 1), h'⟩
            · exact ih (a + 1) s h'

/-- Helper: the STARTTLS retry loop emits only STARTTLS attempts and
sleeps. -/
theorem try_smtp_starttls_loop_steps (env : EmailEnv) :
    ∀ (fuel a : Nat), ∀ s ∈ (try_smtp_starttls_loop env a fuel).1,
      (∃ n b, s = SendStep.tlsAttempt n b) ∨ (∃ q, s = SendStep.sleep q) := by
  intro fuel
  induction fuel with
  | zero => intro a s hs; cases hs
  | succ fuel ih =>
      intro a s hs
      unfold try_smtp_starttls_loop at hs
      cases hfail : env.tlsFailure a with
      | none =>
          rw [hfail] at hs
          simp only [List.mem_singleton] at hs
          exact Or.inl ⟨a, true, hs⟩
      | some e =>
          rw [hfail] at hs
          rcases List.mem_cons.mp hs with h | h
          · exact Or.inl ⟨a, false, h⟩
          · rcases List.mem_cons.mp h with h' | h'
            · exact Or.inr ⟨env.retryDelay * 2 ^ (a - 1), h'⟩
            · exact ih (a + 1) s h'

/-- Helper: the SSL loop makes at most `fuel` attempts. -/
theorem try_smtp_ssl_loop_count (env : EmailEnv) :
    ∀ (fuel a : Nat), ((try_smtp_ssl_loop env a fuel).1.countP isSslStep) ≤ fuel := by
  intro fuel
  induction fuel with
  | zero => intro a; simp [try_smtp_ssl_loop]
  | succ fuel ih =>
      intro a
      unfold try_smtp_ssl_loop
      cases hfail : env.sslFailure a with
      | none => simp [List.countP_cons, isSslStep]
      | some e =>
          simp [List.countP_cons, isSslStep]
          have := ih (a + 1)
          omega

/-- Helper: the STARTTLS loop makes at most `fuel` attempts. -/
theorem try_smtp_starttls_loop_count (env : EmailEnv) :
    ∀ (fuel a : Nat),
      ((try_smtp_starttls_loop env a fuel).1.countP isTlsStep) ≤ fuel := by
  intro fuel
  induction fuel with
  | zero => intro a; simp [try_smtp_starttls_loop]
  | succ fuel ih =>
      intro a
      unfold try_smtp_starttls_loop
      cases hfail : env.tlsFailure a with
      | none => simp [List.countP_cons, isTlsStep]
      | some e =>
          simp [List.countP_cons, isTlsStep]
          have := ih (a + 1)
          omega

/-- Helper: in the SSL loop every failed attempt is followed by the backoff
sleep of that attempt number. -/
theorem try_smtp_ssl_loop_sleep (env : EmailEnv) :
    ∀ (fuel a n : Nat), SendStep.sslAttempt n false ∈ (try_smtp_ssl_loop env a fuel).1 →
      SendStep.sleep (env.retryDelay * 2 ^ (n - 1)) ∈ (try_smtp_ssl_loop env a fuel).1 := by
  intro fuel
  induction fuel with
  | zero => intro a n h; cases h
  | succ fuel ih =>
      intro a n h
      cases hfail : env.sslFailure a with
      | none =>
          unfold try_smtp_ssl_loop at h
          rw [hfail] at h
          simp only [List.mem_singleton] at h
          cases h
      | some e =>
          unfold try_smtp_ssl_loop at h ⊢
          rw [hfail] at h ⊢
          rcases List.mem_cons.mp h with h1 | h1
          · injection h1 with hn hb
            subst hn
            exact List.mem_cons.mpr (Or.inr (List.mem_cons.mpr (Or.inl rfl)))
          · rcases List.mem_cons.mp h1 with h2 | h2
            · cases h2
            · exact List.mem_cons.mpr (Or.inr (List.mem_cons.mpr
                (Or.inr (ih (a + 1) n h2))))

/-- Helper: in the STARTTLS loop every failed attempt is followed by the
backoff sleep of that attempt number. -/
theorem try_smtp_starttls_loop_sleep (env : EmailEnv) :
    ∀ (fuel a n : Nat),
      SendStep.tlsAttempt n false ∈ (try_smtp_starttls_loop env a fuel).1 →
        SendStep.sleep (env.retryDelay * 2 ^ (n - 1)) ∈
          (try_smtp_starttls_loop env a fuel).1 := by
  intro fuel
  induction fuel with
  | zero => intro a n h; cases h
  | succ fuel ih =>
      intro a n h
      cases hfail : env.tlsFailure a with
      | none =>
          unfold try_smtp_starttls_loop at h
          rw [hfail] at h
          simp only [List.mem_singleton] at h
          cases h
      | some e =>
          unfold try_smtp_starttls_loop at h ⊢
          rw [hfail] at h ⊢
          rcases List.mem_cons.mp h with h1 | h1
          · injection h1 with hn hb
            subst hn
            exact List.mem_cons.mpr (Or.inr (List.mem_cons.mpr (Or.inl rfl)))
          · rcases List.mem_cons.mp h1 with h2 | h2
            · cases h2
            · exact List.mem_cons.mpr (Or.inr (List.mem_cons.mpr
                (Or.inr (ih (a + 1) n h2))))

/-- Helper: the SMTP phase trace is an (optionally empty) SSL channel trace
followed by an (optionally empty) STARTTLS channel trace. -/
theorem smtpPhase_shape (env : EmailEnv) :
    ∃ t1 t2, (smtpPhase env).1 = t1 ++ t2 ∧
      (t1 = [] ∨ t1 = (try_smtp_ssl env).1) ∧
      (t2 = [] ∨ t2 = (try_smtp_starttls env).1) := by
  unfold smtpPhase
  by_cases hc : (hasGmailCreds env && (env.port465Open || env.port587Open)) = true
  · simp only [hc, if_true]
    by_cases h465 : env.port465Open
    · simp only [h465, if_true]
      by_cases hr : (try_smtp_ssl env).2
      · exact ⟨(try_smtp_ssl env).1, [], by simp [hr], Or.inr rfl, Or.inl rfl⟩
      · by_cases h587 : env.port587Open
        · exact ⟨(try_smtp_ssl env).1, (try_smtp_starttls env).1,
            by simp [hr, h587], Or.inr rfl, Or.inr rfl⟩
        · exact ⟨(try_smtp_ssl env).1, [], by simp [hr, h587], Or.inr rfl,
            Or.inl rfl⟩
    · simp only [h465, if_false]
      by_cases h587 : env.port587Open
      · exact ⟨[], (try_smtp_starttls env).1, by simp [h587], Or.inl rfl,
          Or.inr rfl⟩
      · exact ⟨[], [], by simp [h587], Or.inl rfl, Or.inl rfl⟩
  · simp only [hc, if_false]
    exact ⟨[], [], rfl, Or.inl rfl, Or.inl rfl⟩

/-- Helper: with both ports probed closed the SMTP phase is skipped. -/
theorem smtpPhase_ports_closed (env : EmailEnv) (h465 : env.port465Open = false)
    (h587 : env.port587Open = false) : smtpPhase env = ([], false) := by
  unfold smtpPhase
  simp [h465, h587]

/-- Helper: SSL attempt count of the SMTP phase is bounded by the configured
retry count. -/
theorem smtpPhase_count_ssl (env : EmailEnv) :
    (smtpPhase env).1.countP isSslStep ≤ env.maxRetries := by
  obtain ⟨t1, t2, hsplit, ht1, ht2⟩ := smtpPhase_shape env
  have h2 : t2.countP isSslStep = 0 := by
    rcases ht2 with rfl | rfl
    · rfl
    · refine List.countP_eq_zero.mpr (fun s hs => ?_)
      rcases try_smtp_starttls_loop_steps env env.maxRetries 1 s hs with
        ⟨n, b, rfl⟩ | ⟨q, rfl⟩ <;> simp [isSslStep]
  have h1 : t1.countP isSslStep ≤ env.maxRetries := by
    rcases ht1 with rfl | rfl
    · exact Nat.zero_le _
    · exact try_smtp_ssl_loop_count env env.maxRetries 1
  rw [hsplit, List.countP_append, h2]
  omega

/-- Helper: STARTTLS attempt count of the SMTP phase is bounded by the
configured retry count. -/
theorem smtpPhase_count_tls (env : EmailEnv) :
    (smtpPhase env).1.countP isTlsStep ≤ env.maxRetries := by
  obtain ⟨t1, t2, hsplit, ht1, ht2⟩ := smtpPhase_shape env
  have h1 : t1.countP isTlsStep = 0 := by
    rcases ht1 with rfl | rfl
    · rfl
    · refine List.countP_eq_zero.mpr (fun s hs => ?_)
      rcases try_smtp_ssl_loop_steps env env.maxRetries 1 s hs with
        ⟨n, b, rfl⟩ | ⟨q, rfl⟩ <;> simp [isTlsStep]
  have h2 : t2.countP isTlsStep ≤ env.maxRetries := by
    rcases ht2 with rfl | rfl
    · exact Nat.zero_le _
    · exact try_smtp_starttls_loop_count env env.maxRetries 1
  rw [hsplit, List.countP_append, h1]
  omega

/-- Helper: every failed SSL attempt in the SMTP phase is followed by its
backoff sleep (stated as trace membership). -/
theorem smtpPhase_sleep_ssl (env : EmailEnv) (n : Nat)
    (h : SendStep.sslAttempt n false ∈ (smtpPhase env).1) :
    SendStep.sleep (env.retryDelay * 2 ^ (n - 1)) ∈ (smtpPhase env).1 := by
  obtain ⟨t1, t2, hsplit, ht1, ht2⟩ := smtpPhase_shape env
  rw [hsplit] at h ⊢
  rcases List.mem_append.mp h with hm | hm
  · rcases ht1 with rfl | rfl
    · cases hm
    · exact List.mem_append_left _ (try_smtp_ssl_loop_sleep env env.maxRetries 1 n hm)
  · rcases ht2 with rfl | rfl
    · cases hm
    · rcases try_smtp_starttls_loop_steps env env.maxRetries 1 _ hm with
        ⟨m, b, hb⟩ | ⟨q, hq⟩
      · cases hb
      · cases hq

/-- Helper: every failed STARTTLS attempt in the SMTP phase is followed by
its backoff sleep. -/
theorem smtpPhase_sleep_tls (env : EmailEnv) (n : Nat)
    (h : SendStep.tlsAttempt n false ∈ (smtpPhase env).1) :
    SendStep.sleep (env.retryDelay * 2 ^ (n - 1)) ∈ (smtpPhase env).1 := by
  obtain ⟨t1, t2, hsplit, ht1, ht2⟩ := smtpPhase_shape env
  rw [hsplit] at h ⊢
  rcases List.mem_append.mp h with hm | hm
  · rcases ht1 with rfl | rfl
    · cases hm
    · rcases try_smtp_ssl_loop_steps env env.maxRetries 1 _ hm with
        ⟨m, b, hb⟩ | ⟨q, hq⟩
      · cases hb
      · cases hq
  · rcases ht2 with rfl | rfl
    · cases hm
    · exact List.mem_append_right _
        (try_smtp_starttls_loop_sleep env env.maxRetries 1 n hm)

/-- Helper: the SMTP phase never performs a SendGrid request. -/
theorem smtpPhase_no_sendgrid (env : EmailEnv) (b : Bool) :
    SendStep.sendgridAttempt b ∉ (smtpPhase env).1 := by
  obtain ⟨t1, t2, hsplit, ht1, ht2⟩ := smtpPhase_shape env
  rw [hsplit]
  intro h
  rcases List.mem_append.mp h with hm | hm
  · rcases ht1 with rfl | rfl
    · cases hm
    · rcases try_smtp_ssl_loop_steps env env.maxRetries 1 _ hm with
        ⟨m, c, hc⟩ | ⟨q, hq⟩
      · cases hc
      · cases hq
  · rcases ht2 with rfl | rfl
    · cases hm
    · rcases try_smtp_starttls_loop_steps env env.maxRetries 1 _ hm with
        ⟨m, c, hc⟩ | ⟨q, hq⟩
      · cases hc
      · cases hq

/-- The tiered-delivery contract of `send_email_alert` as the code realises
it, for a notify call with recipients `to_addrs`: bounded retries per SMTP
channel with exponential backoff after every failed attempt; a SendGrid
request exactly when the key is configured and the SMTP phase did not
deliver (credentials missing, ports probed closed, or retries exhausted);
success via SendGrid when both ports are probed closed and the request
succeeds; and the fixed-message raise when no channel delivers. -/
def EmailTieredSpec (env : EmailEnv) (to_addrs : List String) : Prop :=
  ((send_email_alert env (some to_addrs)).1.countP isSslStep ≤ env.maxRetries ∧
    (send_email_alert env (some to_addrs)).1.countP isTlsStep ≤ env.maxRetries) ∧
  (∀ n : Nat, SendStep.sslAttempt n false ∈ (send_email_alert env (some to_addrs)).1 →
    SendStep.sleep (env.retryDelay * 2 ^ (n - 1)) ∈
      (send_email_alert env (some to_addrs)).1) ∧
  (∀ n : Nat, SendStep.tlsAttempt n false ∈ (send_email_alert env (some to_addrs)).1 →
    SendStep.sleep (env.retryDelay * 2 ^ (n - 1)) ∈
      (send_email_alert env (some to_addrs)).1) ∧
  ((∃ b, SendStep.sendgridAttempt b ∈ (send_email_alert env (some to_addrs)).1) ↔
    (env.sendgridKey.isSome = true ∧ (smtpPhase env).2 = false)) ∧
  (env.port465Open = false → env.port587Open = false →
    send_via_sendgrid env = true →
      (send_email_alert env (some to_addrs)).2 = Except.ok true ∧
        SendStep.sendgridAttempt true ∈ (send_email_alert env (some to_addrs)).1) ∧
  ((smtpPhase env).2 = false → send_via_sendgrid env = false →
    (send_email_alert env (some to_addrs)).2 =
      Except.error "Failed to send email via SMTP and no successful fallback.")

/-- C5 (amended): the tiered-delivery contract holds for every notify call
with a non-empty recipient list, with the secondary channel gated on the
SMTP phase not delivering (which the code enters into only with credentials
and an open port) and the final raise carrying a fixed summary message. -/
theorem send_email_alert_tiered (env : EmailEnv) (to_addrs : List String)
    (h : to_addrs ≠ []) : EmailTieredSpec env to_addrs := by
  have hne : (resolved_recipients env (some to_addrs)).isEmpty = false := by
    cases to_addrs with
    | nil => exact absurd rfl h
    | cons a as => rfl
  by_cases hs : (smtpPhase env).2 = true
  · have hsend : send_email_alert env (some to_addrs) =
        ((smtpPhase env).1, Except.ok true) := by
      unfold send_email_alert
      simp [hne, hs]
    unfold EmailTieredSpec
    rw [hsend]
    refine ⟨⟨smtpPhase_count_ssl env, smtpPhase_count_tls env⟩,
      smtpPhase_sleep_ssl env, smtpPhase_sleep_tls env, ?_, ?_, ?_⟩
    · constructor
      · rintro ⟨b, hb⟩
        exact absurd hb (smtpPhase_no_sendgrid env b)
      · rintro ⟨_, habs⟩
        rw [hs] at habs
        cases habs
    · intro h465 h587 _
      have hclosed := smtpPhase_ports_closed env h465 h587
      rw [hclosed] at hs
      cases hs
    · intro hsf _
      rw [hs] at hsf
      cases hsf
  · have hs' : (smtpPhase env).2 = false := by
      cases hval : (smtpPhase env).2
      · rfl
      · exact absurd hval hs
    by_cases hk : env.sendgridKey.isSome = true
    · by_cases hg : send_via_sendgrid env = true
      · have hsend : send_email_alert env (some to_addrs) =
            ((smtpPhase env).1 ++ [SendStep.sendgridAttempt true],
              Except.ok true) := by
          unfold send_email_alert
          simp [hne, hs', hk, hg]
        unfold EmailTieredSpec
        rw [hsend]
        refine ⟨⟨?_, ?_⟩, ?_, ?_, ?_, ?_, ?_⟩
        · simpa [List.countP_append, isSslStep] using smtpPhase_count_ssl env
        · simpa [List.countP_append, isTlsStep] using smtpPhase_count_tls env
        · intro n hmem
          rcases List.mem_append.mp hmem with hm | hm
          · exact List.mem_append_left _ (smtpPhase_sleep_ssl env n hm)
          · simp at hm
        · intro n hmem
          rcases List.mem_append.mp hmem with hm | hm
          · exact List.mem_append_left _ (smtpPhase_sleep_tls env n hm)
          · simp at hm
        · exact ⟨fun _ => ⟨hk, hs'⟩,
            fun _ => ⟨true, List.mem_append_right _ (by simp)⟩⟩
        · intro _ _ _
          exact ⟨rfl, List.mem_append_right _ (by simp)⟩
        · intro _ hgf
          rw [hg] at hgf
          cases hgf
      · have hg' : send_via_sendgrid env = false := by
          cases hval : send_via_sendgrid env
          · rfl
          · exact absurd hval hg
        have hsend : send_email_alert env (some to_addrs) =
            ((smtpPhase env).1 ++ [SendStep.sendgridAttempt false],
              Except.error
                "Failed to send email via SMTP and no successful fallback.") := by
          unfold send_email_alert
          simp [hne, hs', hk, hg']
        unfold EmailTieredSpec
        rw [hsend]
        refine ⟨⟨?_, ?_⟩, ?_, ?_, ?_, ?_, ?_⟩
        · simpa [List.countP_append, isSslStep] using smtpPhase_count_ssl env
        · simpa [List.countP_append, isTlsStep] using smtpPhase_count_tls env
        · intro n hmem
          rcases List.mem_append.mp hmem with hm | hm
          · exact List.mem_append_left _ (smtpPhase_sleep_ssl env n hm)
          · simp at hm
        · intro n hmem
          rcases List.mem_append.mp hmem with hm | hm
          · exact List.mem_append_left _ (smtpPhase_sleep_tls env n hm)
          · simp at hm
        · exact ⟨fun _ => ⟨hk, hs'⟩,
            fun _ => ⟨false, List.mem_append_right _ (by simp)⟩⟩
        · intro _ _ hsg
          exact absurd hsg hg
        · intro _ _
          rfl
    · have hk' : env.sendgridKey.isSome = false := by
        cases hval : env.sendgridKey.isSome
        · rfl
        · exact absurd hval hk
      have hsend : send_email_alert env (some to_addrs) =
          ((smtpPhase env).1,
            Except.error
              "Failed to send email via SMTP and no successful fallback.") := by
        unfold send_email_alert
        simp [hne, hs', hk']
      unfold EmailTieredSpec
      rw [hsend]
      refine ⟨⟨smtpPhase_count_ssl env, smtpPhase_count_tls env⟩,
        smtpPhase_sleep_ssl env, smtpPhase_sleep_tls env, ?_, ?_, ?_⟩
      · constructor
        · rintro ⟨b, hb⟩
          exact absurd hb (smtpPhase_no_sendgrid env b)
        · rintro ⟨hktrue, _⟩
          rw [hk'] at hktrue
          cases hktrue
      · intro _ _ hsg
        rw [send_via_sendgrid] at hsg
        simp [hk'] at hsg
      · intro _ _
        rfl

/-- Witness for C5 at a healthy environment and one recipient. -/
theorem send_email_alert_tiered_witness :
    EmailTieredSpec envAllUp ["ops@example.com"] :=
  send_email_alert_tiered envAllUp ["ops@example.com"] (by simp)

/-- An environment with no Gmail credentials, both SMTP ports probed open,
and a configured SendGrid key whose request fails. -/
def envNoCreds : EmailEnv :=
  ⟨4, 2, none, none, "", true, true, fun _ => some "ssl refused",
    fun _ => some "tls refused", some "sg-key", some "alerts@example.com",
    false⟩

/-- C5 counterexample: with Gmail credentials missing but both ports probed
open, the secondary channel is attempted although the primary was neither
found unreachable by the probe nor exhausted its retries (the trace holds no
SMTP attempt at all), and the raised error is the fixed summary message,
carrying none of the individual failures. -/
theorem sendgrid_attempted_without_probe_failure_or_retries :
    send_email_alert envNoCreds (some ["ops@example.com"]) =
      ([SendStep.sendgridAttempt false],
        Except.error "Failed to send email via SMTP and no successful fallback.") ∧
    envNoCreds.port465Open = true ∧ envNoCreds.port587Open = true ∧
    envNoCreds.maxRetries = 4 :=
  ⟨rfl, rfl, rfl, rfl⟩

/-- C8: a malformed (or absent) concentration is coerced to zero, so for any
positive threshold such a reading is never among the flagged anomalies; the
coercion is total, so detection never raises on such input. -/
theorem invalid_ppm_never_anomalous :
    (safe_float (some PpmVal.invalid) = 0 ∧ safe_float none = 0) ∧
    (∀ (rs : List Reading) (th : ℚ) (r : Reading), 0 < th →
      (r.methane_ppm = some PpmVal.invalid ∨ r.methane_ppm = none) →
      r ∉ (detect_anomalies_from_readings rs th).map Anomaly.reading) := by
  refine ⟨⟨rfl, rfl⟩, fun rs th r hth hppm hmem => ?_⟩
  rw [detect_anomalies_eq_filter_map, List.map_map] at hmem
  have hr : r ∈ rs.filter (fun r => decide (safe_float r.methane_ppm ≥ th)) := by
    simpa using hmem
  have hge := of_decide_eq_true (List.mem_filter.mp hr).2
  have h0 : safe_float r.methane_ppm = 0 := by
    rcases hppm with h | h <;> simp [safe_float, h]
  rw [h0] at hge
  exact absurd hge (not_le.mpr hth)

/-- Index of the first occurrence of a character, scanning from `i`
(`str.find(c)`). -/
def str_find_idx : List Char → Char → Nat → Option Nat
  | [], _, _ => none
  | c :: rest, target, i =>
      if c = target then some i else str_find_idx rest target (i + 1)

/-- Python `text.find(c)` as an `Option` (Python returns -1 on a miss). -/
def str_find (s : String) (c : Char) : Option Nat :=
  str_find_idx s.toList c 0

/-- Python `text.rfind(c)` as an `Option`. -/
def str_rfind (s : String) (c : Char) : Option Nat :=
  (str_find_idx s.toList.reverse c 0).map (fun i => s.toList.length - 1 - i)

/-- Python slice `text[start:stop]`. -/
def str_slice (s : String) (start stop : Nat) : String :=
  String.mk ((s.toList.drop start).take (stop - start))

/-- Embeds the blob extraction of `call_chatgpt_reasoner`
(`src/autonomous/reasoning_agent.py` lines 144-149): the substring from the
first opening brace to the last closing brace when both exist in that order,
else the whole text. -/
def extract_json_blob (text : String) : String :=
  match str_find text '{', str_rfind text '}' with
  | some start, some stop =>
      if start < stop then str_slice text start (stop + 1) else text
  | some _, none => text
  | none, some _ => text
  | none, none => text

/-- Modelled from the spec: the spec's "first balanced structured-payload
delimiters" — scan to the first opening brace, then return the segment up to
the brace that balances it.  This definition exists only to compare the
spec's described extraction with the one the code performs. -/
def balanced_segment_aux : List Char → Nat → List Char → Option (List Char)
  | [], _, _ => none
  | c :: rest, depth, acc =>
      if c = '{' then balanced_segment_aux rest (depth + 1) (c :: acc)
      else if c = '}' then
        if depth ≤ 1 then some (c :: acc).reverse
        else balanced_segment_aux rest (depth - 1) (c :: acc)
      else balanced_segment_aux rest depth (c :: acc)

/-- Modelled from the spec: the first balanced brace segment of a text, if
any. -/
def first_balanced_segment (text : String) : Option String :=
  match text.toList.dropWhile (fun c => c ≠ '{') with
  | [] => none
  | l => (balanced_segment_aux l 0 []).map String.mk

/-- A parsed JSON value, as `json.loads` returns one. -/
inductive JVal where
  | jnull
  | jbool (b : Bool)
  | jnum (q : ℚ)
  | jstr (s : String)
  | jarr (elems : List JVal)
  | jobj (fields : List (String × JVal))

/-- Python `key in result` on a parsed value: key membership for a dict,
substring for a string, element equality for a list.  On a scalar Python
raises `TypeError`; returning `false` here routes that case to the same
raised-error outcome (the missing-fields branch). -/
def jvalHasKey : JVal → String → Bool
  | JVal.jobj fields, key => fields.any (fun p => decide (p.1 = key))
  | JVal.jstr s, key => decide (key.toList <:+: s.toList)
  | JVal.jarr elems, key =>
      elems.any (fun v =>
        match v with
        | JVal.jstr s => decide (s = key)
        | _ => false)
  | _, _ => false

/-- Embeds `call_chatgpt_reasoner` of `src/autonomous/reasoning_agent.py`
(lines 102-159).  The remote chat call and the SDK response-shape probing
(`_extract_text_from_chat_response`) are abstracted into `llmResponse`, the
raw text or the exception of the remote call; `json.loads` is the abstract
parameter `parseJson` (`none` models a parse exception).  The function
strips the raw text, extracts the brace-delimited blob, parses it, and
validates the two mandatory keys. -/
def call_chatgpt_reasoner (parseJson : String → Option JVal)
    (llmResponse : Except String String) : Except String JVal :=
  match llmResponse with
  | Except.error e => Except.error ("LLM call error: " ++ e)
  | Except.ok raw_text =>
      let text := raw_text.trim
      let json_blob := extract_json_blob text
      match parseJson json_blob with
      | none => Except.error "Unable to parse LLM output as JSON"
      | some result =>
          if jvalHasKey result "decision" && jvalHasKey result "confidence" then
            Except.ok result
          else
            Except.error "LLM output missing required fields (decision/confidence)"

/-- C6 counterexample: the code's extraction runs from the first opening
brace to the LAST closing brace, not to the brace balancing the first — on
prose with two brace groups the two disagree. -/
theorem extraction_not_first_balanced :
    extract_json_blob "a {x} b {y} c" = "{x} b {y}" ∧
    first_balanced_segment "a {x} b {y} c" = some "{x}" ∧
    first_balanced_segment "a {x} b {y} c" ≠
      some (extract_json_blob "a {x} b {y} c") := by
  refine ⟨by decide, by decide, by decide⟩

/-- C6 (amended): the bridge errors exactly when the remote call errors, the
extracted first-brace-to-last-brace blob does not parse, or the parsed value
lacks the decision or confidence key; otherwise it returns the parsed
value. -/
theorem call_chatgpt_reasoner_error_iff (parseJson : String → Option JVal)
    (resp : Except String String) :
    ((∃ v, call_chatgpt_reasoner parseJson resp = Except.ok v) ↔
      (∃ raw v, resp = Except.ok raw ∧
        parseJson (extract_json_blob raw.trim) = some v ∧
        jvalHasKey v "decision" = true ∧ jvalHasKey v "confidence" = true)) ∧
    (∀ raw v, resp = Except.ok raw →
      parseJson (extract_json_blob raw.trim) = some v →
      jvalHasKey v "decision" = true → jvalHasKey v "confidence" = true →
      call_chatgpt_reasoner parseJson resp = Except.ok v) := by
  constructor
  · cases resp with
    | error e =>
        simp [call_chatgpt_reasoner]
    | ok raw =>
        cases hp : parseJson (extract_json_blob raw.trim) with
        | none =>
            simp [call_chatgpt_reasoner, hp]
        | some v =>
            by_cases hd : jvalHasKey v "decision" = true
            · by_cases hc : jvalHasKey v "confidence" = true
              · simp [call_chatgpt_reasoner, hp, hd, hc]
              · simp [call_chatgpt_reasoner, hp, hd, hc]
            · simp [call_chatgpt_reasoner, hp, hd]
  · intro raw v hresp hp hd hc
    subst hresp
    simp [call_chatgpt_reasoner, hp, hd, hc]

/-- A `SensorEvent` record as `insert_sensor_event` stores it. -/
structure StoredEvent where
  timestamp : String
  node_id : String
  methane_ppm : ℚ
  scenario : String
  trace_id : String
  deriving DecidableEq, Repr

/-- The trace id `insert_sensor_event` generates when none is passed:
`f"trace-{int(datetime.now(tz=timezone.utc).timestamp() * 1000)}"`. -/
def insert_gen_trace_id (storeNowMs : Int) : String :=
  "trace-" ++ toString storeNowMs

/-- The default trace id `receive_sensor_data` writes into the response
payload: `f"trace-{datetime.utcnow().isoformat()}"`. -/
def api_default_trace_id (apiNowIso : String) : String :=
  "trace-" ++ apiNowIso

/-- Embeds `insert_sensor_event` of `src/data_layer/weaviate_client.py`
(lines 225-277): defaults the trace id and timestamp from the store-side
clock (passed explicitly), builds the stored object, and returns the trace
id.  The client/version fallbacks change only which transport stores the
same object and are not modelled. -/
def insert_sensor_event (node_id : String) (methane_ppm : ℚ)
    (scenario : String) (trace_id : Option String) (timestamp : Option String)
    (storeNowMs : Int) (storeNowIso : String) : StoredEvent × String :=
  let tid := trace_id.getD (insert_gen_trace_id storeNowMs)
  let ts := timestamp.getD storeNowIso
  (⟨ts, node_id, methane_ppm, scenario, tid⟩, tid)

/-- The JSON body of a POST to `/sensor-data`; `none` is an absent key. -/
structure SensorBody where
  timestamp : Option String
  node_id : Option String
  methane_ppm : Option ℚ
  scenario : Option String
  trace_id : Option String
  deriving DecidableEq, Repr

/-- The endpoint's response: the echoed data payload's trace id plus the
record the store kept, or the 400 validation error naming the missing
field. -/
inductive ApiResponse where
  | ok (dataTraceId : String) (stored : StoredEvent)
  | errMissing (field : String)
  deriving DecidableEq, Repr

/-- Embeds `receive_sensor_data` of `src/autonomous/api_server.py` (lines
17-60): validate the three required fields in order, default `scenario` and
`trace_id` into the response payload, then call `insert_sensor_event` with
timestamp, node id, concentration and scenario — the defaulted `trace_id` of
the payload is NOT passed, so the store generates its own. -/
def receive_sensor_data (body : SensorBody) (apiNowIso : String)
    (storeNowMs : Int) (storeNowIso : String) : ApiResponse :=
  match body.timestamp, body.node_id, body.methane_ppm with
  | none, _, _ => ApiResponse.errMissing "timestamp"
  | some _, none, _ => ApiResponse.errMissing "node_id"
  | some _, some _, none => ApiResponse.errMissing "methane_ppm"
  | some ts, some nid, some ppm =>
      let scenarioVal := (body.scenario).getD "normal"
      let dataTraceId := (body.trace_id).getD (api_default_trace_id apiNowIso)
      let inserted :=
        insert_sensor_event nid ppm scenarioVal none (some ts) storeNowMs
          storeNowIso
      ApiResponse.ok dataTraceId inserted.1

/-- C9 (code bug): for a body posted without a trace id, the store-level
insert is deterministic and returns exactly the stored record's non-empty
trace id — but the endpoint reports the payload default
`trace-<ISO timestamp>` to the caller while the stored record carries the
independently generated `trace-<epoch ms>`, so the id reported back never
matches the one a re-fetch returns. -/
theorem api_reported_trace_id_differs_from_stored :
    receive_sensor_data
        ⟨some "2025-10-22T20:40:00Z", some "Sensor_A", some (153 / 10), none,
          none⟩
        "2025-10-22T20:40:01.123456" 1761165601123 "2025-10-22T20:40:01+00:00" =
      ApiResponse.ok "trace-2025-10-22T20:40:01.123456"
        ⟨"2025-10-22T20:40:00Z", "Sensor_A", 153 / 10, "normal",
          "trace-1761165601123"⟩ ∧
    (insert_sensor_event "Sensor_A" (153 / 10) "normal" none
        (some "2025-10-22T20:40:00Z") 1761165601123
        "2025-10-22T20:40:01+00:00").2 =
      (insert_sensor_event "Sensor_A" (153 / 10) "normal" none
          (some "2025-10-22T20:40:00Z") 1761165601123
          "2025-10-22T20:40:01+00:00").1.trace_id ∧
    "trace-1761165601123" ≠ "" ∧
    "trace-2025-10-22T20:40:01.123456" ≠ "trace-1761165601123" := by
  exact ⟨rfl, rfl, by decide, by decide⟩
